import Mathlib

/-
Verification development for the VoVNet backbone defined in vovnet39.py.

The network is a static composition of shape-transforming layers; we embed it
at the level of tensor shapes: a feature map is represented by its
(channels, height, width) triple (the batch dimension is untouched by every
layer and is omitted).  Each layer becomes a function from shapes to
`Option Shape`, returning `none` exactly when the tensor runtime would raise
a shape error (convolution input-channel mismatch, a max-pool whose output
would be empty, concatenation of maps with different spatial sizes, or a
non-broadcastable element-wise addition).
The module-name strings (`module_name`, the postfix argument) of the Python
code only label entries of the ordered dictionaries handed to nn.Sequential
and have no semantic content, so they are dropped from the embedding.
-/

/-- The shape of one feature map: channel count and spatial height/width.
The batch dimension is omitted (no layer of this network reads or changes it). -/
structure Shape where
  channels : Nat
  height : Nat
  width : Nat
  deriving DecidableEq, Repr

/-- Output spatial dimension of nn.Conv2d (dilation 1, floor rounding):
floor((h + 2*padding - kernel) / stride) + 1. -/
def convOutDim (h kernel stride padding : Nat) : Nat :=
  (h + 2 * padding - kernel) / stride + 1

/-- Output spatial dimension of nn.MaxPool2d with ceil_mode=True and no
padding: ceil((h - kernel) / stride) + 1, written with natural division as
(h + (stride - 1) - kernel) / stride + 1.  This agrees with the PyTorch
formula exactly when kernel < h + stride, i.e. when the computed output size
is at least 1; otherwise PyTorch raises "Output size is too small", which
StageItem.apply models as `none` (so this function is only ever read under
that guard). -/
def poolCeilOutDim (h kernel stride : Nat) : Nat :=
  (h + (stride - 1) - kernel) / stride + 1

/-- The three primitive layers of the network.  BatchNorm2d and ReLU are
shape-preserving; Conv2d requires its declared input channel count. -/
inductive Layer where
  | conv2d (inChannels outChannels kernelSize stride padding groups : Nat)
  | batchNorm2d (numFeatures : Nat)
  | relu
  deriving DecidableEq, Repr

/-- Shape semantics of one layer. `none` is the tensor runtime's fatal shape
error (channel mismatch on a convolution or batch norm). -/
def Layer.apply : Layer → Shape → Option Shape
  | .conv2d ic oc k s p _g, ⟨c, h, w⟩ =>
      if c = ic then some ⟨oc, convOutDim h k s p, convOutDim w k s p⟩ else none
  | .batchNorm2d n, ⟨c, h, w⟩ => if c = n then some ⟨c, h, w⟩ else none
  | .relu, sh => some sh

/-- conv3x3 of vovnet39.py: a Conv-Norm-Act unit with kernel 3, padding 1,
groups 1 and the given stride (the name-string arguments are dropped). -/
def conv3x3 (in_channels out_channels stride : Nat) : List Layer :=
  [Layer.conv2d in_channels out_channels 3 stride 1 1,
   Layer.batchNorm2d out_channels,
   Layer.relu]

/-- conv1x1 of vovnet39.py: a Conv-Norm-Act unit with kernel 1, padding 0,
stride 1, groups 1. -/
def conv1x1 (in_channels out_channels : Nat) : List Layer :=
  [Layer.conv2d in_channels out_channels 1 1 0 1,
   Layer.batchNorm2d out_channels,
   Layer.relu]

/-- nn.Sequential: apply the layers left to right, propagating shape errors. -/
def seqForward (layers : List Layer) (x : Shape) : Option Shape :=
  List.foldlM (fun s l => Layer.apply l s) x layers

/-- The conv chain built by the loop of _OSA_module.__init__: the first unit
maps in_channel to stage_ch, and after each iteration in_channel := stage_ch. -/
def osaLayers : Nat → Nat → Nat → List (List Layer)
  | 0, _, _ => []
  | Nat.succ n, in_channel, stage_ch =>
      conv3x3 in_channel stage_ch 1 :: osaLayers n stage_ch stage_ch

/-- _OSA_module of vovnet39.py: the identity flag, the ModuleList of
layer_per_block conv3x3 units, and the 1x1 aggregation unit. -/
structure OSA_module where
  identity : Bool
  layers : List (List Layer)
  concat : List Layer
  deriving DecidableEq, Repr

/-- _OSA_module.__init__(in_ch, stage_ch, concat_ch, layer_per_block,
module_name, identity).  Python performs no validation here: construction is
total and in particular never checks in_ch against concat_ch. -/
def OSA_module.make (in_ch stage_ch concat_ch layer_per_block : Nat)
    (identity : Bool) : OSA_module :=
  ⟨identity,
   osaLayers layer_per_block in_ch stage_ch,
   conv1x1 (in_ch + layer_per_block * stage_ch) concat_ch⟩

/-- The loop of _OSA_module.forward: run the layers in order, each consuming
the previous output, collecting every intermediate map (the list `output`
minus its initial element x). -/
def collectOutputs : List (List Layer) → Shape → Option (List Shape)
  | [], _ => some []
  | layer :: rest, x => do
      let y ← seqForward layer x
      let ys ← collectOutputs rest y
      pure (y :: ys)

/-- torch.cat(·, dim=1): all maps must agree on the spatial dimensions; the
channel counts add up. -/
def catDim1 : List Shape → Option Shape
  | [] => none
  | s :: rest =>
      if rest.all (fun t => t.height = s.height && t.width = s.width) then
        some ⟨s.channels + (rest.map Shape.channels).sum, s.height, s.width⟩
      else none

/-- PyTorch broadcasting of one dimension for an element-wise binary op. -/
def broadcastDim (a b : Nat) : Option Nat :=
  if a = b then some a
  else if a = 1 then some b
  else if b = 1 then some a
  else none

/-- Shape semantics of `xt + identity_feat`: element-wise addition with
PyTorch broadcasting; `none` is the runtime's fatal shape-mismatch error. -/
def tensorAdd (a b : Shape) : Option Shape := do
  let c ← broadcastDim a.channels b.channels
  let h ← broadcastDim a.height b.height
  let w ← broadcastDim a.width b.width
  pure ⟨c, h, w⟩

/-- The concatenation input of _OSA_module.forward: the original input
consed onto all collected intermediate maps, concatenated along channels. -/
def OSA_module.catInput (m : OSA_module) (x : Shape) : Option Shape := do
  let outs ← collectOutputs m.layers x
  catDim1 (x :: outs)

/-- _OSA_module.forward: chain the layers, concatenate input plus all
intermediates, reduce with the 1x1 unit, and (in identity mode) add the
original input element-wise. -/
def OSA_module.forward (m : OSA_module) (x : Shape) : Option Shape := do
  let xc ← m.catInput x
  let xt ← seqForward m.concat xc
  if m.identity then tensorAdd xt x else pure xt

/-- One entry of an _OSA_stage nn.Sequential: the optional leading max-pool
(always kernel 3, stride 2, ceil_mode=True in this file) or an OSA module. -/
inductive StageItem where
  | maxPool (kernelSize stride : Nat)
  | osa (m : OSA_module)
  deriving DecidableEq, Repr

/-- Shape semantics of one stage entry.  The max-pool is the ceil-mode one
constructed by _OSA_stage.__init__; it fails (PyTorch raises "Output size is
too small") whenever the ceil-rounded output ceil((dim - kernel)/stride) + 1
would be smaller than 1 on either spatial dimension, i.e. unless
kernel < dim + stride.  For this network's 3x3 stride-2 pool that means a
spatial dimension of size 1 is a fatal error. -/
def StageItem.apply : StageItem → Shape → Option Shape
  | .maxPool k s, ⟨c, h, w⟩ =>
      if k < h + s ∧ k < w + s then
        some ⟨c, poolCeilOutDim h k s, poolCeilOutDim w k s⟩
      else none
  | .osa m, x => m.forward x

/-- The trailing loop of _OSA_stage.__init__: block_per_stage - 1 further OSA
modules, each with concat_ch as both input and output and identity=True. -/
def osaIdentityModules (stage_ch concat_ch layer_per_block n : Nat) :
    List StageItem :=
  List.replicate n
    (StageItem.osa (OSA_module.make concat_ch stage_ch concat_ch
      layer_per_block true))

/-- _OSA_stage.__init__: a ceil-mode 3x3 stride-2 max-pool unless
stage_num == 2, then the first OSA module (non-identity, from in_ch), then
block_per_stage - 1 identity OSA modules (Python range(block_per_stage - 1),
which is empty when block_per_stage ≤ 1, matching truncated subtraction). -/
def _OSA_stage (in_ch stage_ch concat_ch block_per_stage layer_per_block
    stage_num : Nat) : List StageItem :=
  (if stage_num = 2 then [] else [StageItem.maxPool 3 2]) ++
  StageItem.osa (OSA_module.make in_ch stage_ch concat_ch layer_per_block false) ::
  osaIdentityModules stage_ch concat_ch layer_per_block (block_per_stage - 1)

/-- nn.Sequential semantics of a stage: entries applied left to right. -/
def stageForward (stage : List StageItem) (x : Shape) : Option Shape :=
  List.foldlM (fun s item => StageItem.apply item s) x stage

/-- VoVNet: the stem and the four OSA stages (self.stage2 .. self.stage5).
The classifier (nn.Linear(config_concat_ch[-1], num_classes)) is recorded by
its (in_features, out_features) pair; it is unused by forward. -/
structure VoVNet where
  stem : List Layer
  stage2 : List StageItem
  stage3 : List StageItem
  stage4 : List StageItem
  stage5 : List StageItem
  classifier : Nat × Nat
  deriving DecidableEq, Repr

/-- VoVNet.__init__: the stem is three conv3x3 units with strides [2,1,2] and
channels 3 -> 64 -> 64 -> 128; the per-stage input channel list is
[128] ++ config_concat_ch[:-1]; stage i+2 is built by _OSA_stage from the
i-th entries of the configuration lists. -/
def VoVNet.make (config_stage_ch config_concat_ch block_per_stage : List Nat)
    (layer_per_block num_classes : Nat) : VoVNet :=
  let stem := conv3x3 3 64 2 ++ conv3x3 64 64 1 ++ conv3x3 64 128 2
  let in_ch_list := 128 :: config_concat_ch.dropLast
  ⟨stem,
   _OSA_stage (in_ch_list.getD 0 0) (config_stage_ch.getD 0 0)
     (config_concat_ch.getD 0 0) (block_per_stage.getD 0 0) layer_per_block 2,
   _OSA_stage (in_ch_list.getD 1 0) (config_stage_ch.getD 1 0)
     (config_concat_ch.getD 1 0) (block_per_stage.getD 1 0) layer_per_block 3,
   _OSA_stage (in_ch_list.getD 2 0) (config_stage_ch.getD 2 0)
     (config_concat_ch.getD 2 0) (block_per_stage.getD 2 0) layer_per_block 4,
   _OSA_stage (in_ch_list.getD 3 0) (config_stage_ch.getD 3 0)
     (config_concat_ch.getD 3 0) (block_per_stage.getD 3 0) layer_per_block 5,
   (config_concat_ch.getLastD 0, num_classes)⟩

/-- The dictionary VoVNet.forward returns: exactly the four keys
res2, res3, res4, res5, in this order of assignment. -/
structure Outputs where
  res2 : Shape
  res3 : Shape
  res4 : Shape
  res5 : Shape
  deriving DecidableEq, Repr

/-- VoVNet.forward: stem, then the four stages in sequence, recording the
output of stage (i+2) under key res(i+2). -/
def VoVNet.forward (net : VoVNet) (x : Shape) : Option Outputs := do
  let x1 ← seqForward net.stem x
  let x2 ← stageForward net.stage2 x1
  let x3 ← stageForward net.stage3 x2
  let x4 ← stageForward net.stage4 x3
  let x5 ← stageForward net.stage5 x4
  pure ⟨x2, x3, x4, x5⟩

/-- detectron2 ShapeSpec restricted to the two fields this file sets. -/
structure ShapeSpec where
  channels : Nat
  stride : Nat
  deriving DecidableEq, Repr

/-- The dictionary VoVNet.output_shape returns. -/
structure OutputShapes where
  res2 : ShapeSpec
  res3 : ShapeSpec
  res4 : ShapeSpec
  res5 : ShapeSpec
  deriving DecidableEq, Repr

/-- VoVNet.output_shape: hard-coded channel/stride pairs, independent of the
configuration the instance was built with. -/
def VoVNet.output_shape (_net : VoVNet) : OutputShapes :=
  ⟨⟨256, 4⟩, ⟨512, 8⟩, ⟨768, 16⟩, ⟨1024, 32⟩⟩

/-- The failure modes of the builder path. -/
inductive PyError where
  | nameError (name : String)
  | keyError (key : String)
  deriving DecidableEq, Repr

/-- The model_urls dictionary: keys vovnet39 and vovnet57 only; lookup of any
other key is a KeyError, modelled as `none`. -/
def model_urls (arch : String) : Option String :=
  if arch = "vovnet39" then
    some "https://dl.dropbox.com/s/1lnzsgnixd8gjra/vovnet39_torchvision.pth?dl=1"
  else if arch = "vovnet57" then
    some "https://dl.dropbox.com/s/6bfu9gstbwfw31m/vovnet57_torchvision.pth?dl=1"
  else none

/-- _vovnet of vovnet39.py.  The model is always constructed first.  When
pretrained is set, the code evaluates the call
load_state_dict_from_url(model_urls[arch], ...); but vovnet39.py never
imports load_state_dict_from_url, and Python resolves the callee name before
evaluating its arguments, so this line raises
NameError("load_state_dict_from_url") for every arch, before model_urls is
consulted.  When pretrained is unset the table is not consulted at all.
Loading a state dict does not change the architecture, so the (unreachable)
success branch would return the same model. -/
def _vovnet (arch : String)
    (config_stage_ch config_concat_ch block_per_stage : List Nat)
    (layer_per_block : Nat) (pretrained : Bool) : Except PyError VoVNet :=
  let model := VoVNet.make config_stage_ch config_concat_ch block_per_stage
    layer_per_block 1000
  if pretrained then
    Except.error (PyError.nameError "load_state_dict_from_url")
  else
    Except.ok model

/-- vovnet57(pretrained): stage channels [128,160,192,224], concat channels
[256,512,768,1024], blocks per stage [1,1,4,3], 5 layers per block. -/
def vovnet57 (pretrained : Bool) : Except PyError VoVNet :=
  _vovnet "vovnet57" [128, 160, 192, 224] [256, 512, 768, 1024] [1, 1, 4, 3]
    5 pretrained

/-- vovnet39(pretrained): blocks per stage [1,1,2,2]. -/
def vovnet39 (pretrained : Bool) : Except PyError VoVNet :=
  _vovnet "vovnet39" [128, 160, 192, 224] [256, 512, 768, 1024] [1, 1, 2, 2]
    5 pretrained

/-- vovnet27_slim(pretrained): stage channels [64,80,96,112], concat channels
[128,256,384,512], blocks per stage [1,1,1,1]. -/
def vovnet27_slim (pretrained : Bool) : Except PyError VoVNet :=
  _vovnet "vovnet27_slim" [64, 80, 96, 112] [128, 256, 384, 512] [1, 1, 1, 1]
    5 pretrained

/-- The VoVNet-39 architecture (what vovnet39(False) returns). -/
def vovnet39_model : VoVNet :=
  VoVNet.make [128, 160, 192, 224] [256, 512, 768, 1024] [1, 1, 2, 2] 5 1000

/-- The VoVNet-57 architecture (what vovnet57(False) returns). -/
def vovnet57_model : VoVNet :=
  VoVNet.make [128, 160, 192, 224] [256, 512, 768, 1024] [1, 1, 4, 3] 5 1000

/-- The VoVNet-27-slim architecture (what vovnet27_slim(False) returns). -/
def vovnet27_slim_model : VoVNet :=
  VoVNet.make [64, 80, 96, 112] [128, 256, 384, 512] [1, 1, 1, 1] 5 1000

/-- Spatial dimension after the stem (strides 2, 1, 2 with kernel 3, pad 1). -/
def stemOutDim (h : Nat) : Nat :=
  convOutDim (convOutDim (convOutDim h 3 2 1) 3 1 1) 3 2 1

/-- Spatial dimension after the ceil-mode 3x3 stride-2 max-pool. -/
def halveCeil (h : Nat) : Nat := poolCeilOutDim h 3 2

/-- The OSA modules of a stage, in order. -/
def stageModules (stage : List StageItem) : List OSA_module :=
  stage.filterMap fun item =>
    match item with
    | .osa m => some m
    | .maxPool _ _ => none

/-- The max-pool entries of a stage, in order. -/
def stagePools (stage : List StageItem) : List StageItem :=
  stage.filter fun item =>
    match item with
    | .osa _ => false
    | .maxPool _ _ => true

lemma seqForward_nil (x : Shape) : seqForward [] x = some x := rfl

lemma seqForward_cons (l : Layer) (ls : List Layer) (x : Shape) :
    seqForward (l :: ls) x = (Layer.apply l x).bind (seqForward ls) := by
  simp [seqForward, List.foldlM_cons]

lemma seqForward_append (ls ls' : List Layer) (x : Shape) :
    seqForward (ls ++ ls') x = (seqForward ls x).bind (seqForward ls') := by
  induction ls generalizing x with
  | nil => simp [seqForward_nil]
  | cons l t ih =>
      simp [seqForward_cons, ih]
      cases Layer.apply l x <;> simp [ih]

lemma seqForward_conv3x3 (a b s h w : Nat) :
    seqForward (conv3x3 a b s) ⟨a, h, w⟩ =
      some ⟨b, convOutDim h 3 s 1, convOutDim w 3 s 1⟩ := by
  simp [conv3x3, seqForward_cons, seqForward_nil, Layer.apply]

lemma seqForward_conv1x1 (a b h w : Nat) :
    seqForward (conv1x1 a b) ⟨a, h, w⟩ =
      some ⟨b, convOutDim h 1 1 0, convOutDim w 1 1 0⟩ := by
  simp [conv1x1, seqForward_cons, seqForward_nil, Layer.apply]

lemma convOutDim_3_1_1 (h : Nat) (hh : 1 ≤ h) : convOutDim h 3 1 1 = h := by
  simp [convOutDim]
  omega

lemma convOutDim_1_1_0 (h : Nat) (hh : 1 ≤ h) : convOutDim h 1 1 0 = h := by
  simp [convOutDim]
  omega

lemma collectOutputs_osaLayers (L : Nat) : ∀ (a b h w : Nat), 1 ≤ h → 1 ≤ w →
    collectOutputs (osaLayers L a b) ⟨a, h, w⟩ =
      some (List.replicate L ⟨b, h, w⟩) := by
  induction L with
  | zero => intro a b h w _ _; rfl
  | succ n ih =>
      intro a b h w hh hw
      have h3 : seqForward (conv3x3 a b 1) ⟨a, h, w⟩ = some ⟨b, h, w⟩ := by
        rw [seqForward_conv3x3, convOutDim_3_1_1 h hh, convOutDim_3_1_1 w hw]
      simp [osaLayers, collectOutputs, h3, ih b b h w hh hw, List.replicate_succ]

lemma catDim1_cons_replicate (a b L h w : Nat) :
    catDim1 (Shape.mk a h w :: List.replicate L ⟨b, h, w⟩) =
      some ⟨a + L * b, h, w⟩ := by
  have hall : (List.replicate L (Shape.mk b h w)).all
      (fun t => t.height = (Shape.mk a h w).height &&
        t.width = (Shape.mk a h w).width) = true := by
    rw [List.all_eq_true]
    intro t ht
    rw [List.eq_of_mem_replicate ht]
    simp
  have hsum : ((List.replicate L (Shape.mk b h w)).map Shape.channels).sum
      = L * b := by
    rw [List.map_replicate, List.sum_replicate, smul_eq_mul]
  simp only [catDim1, hall, if_true]
  rw [hsum]

lemma OSA_catInput_make (in_ch st cc L h w : Nat) (i : Bool)
    (hh : 1 ≤ h) (hw : 1 ≤ w) :
    (OSA_module.make in_ch st cc L i).catInput ⟨in_ch, h, w⟩ =
      some ⟨in_ch + L * st, h, w⟩ := by
  simp only [OSA_module.catInput, OSA_module.make,
    collectOutputs_osaLayers L in_ch st h w hh hw, Option.bind_eq_bind,
    Option.some_bind]
  exact catDim1_cons_replicate in_ch st L h w

lemma OSA_reduced_make (in_ch st cc L h w : Nat) (i : Bool)
    (hh : 1 ≤ h) (hw : 1 ≤ w) :
    seqForward (OSA_module.make in_ch st cc L i).concat ⟨in_ch + L * st, h, w⟩
      = some ⟨cc, h, w⟩ := by
  show seqForward (conv1x1 (in_ch + L * st) cc) _ = _
  rw [seqForward_conv1x1, convOutDim_1_1_0 h hh, convOutDim_1_1_0 w hw]

lemma OSA_forward_nonidentity (in_ch st cc L h w : Nat)
    (hh : 1 ≤ h) (hw : 1 ≤ w) :
    (OSA_module.make in_ch st cc L false).forward ⟨in_ch, h, w⟩ =
      some ⟨cc, h, w⟩ := by
  simp only [OSA_module.forward, OSA_catInput_make in_ch st cc L h w false hh hw,
    OSA_reduced_make in_ch st cc L h w false hh hw, Option.bind_eq_bind,
    Option.some_bind]
  rfl

lemma tensorAdd_self (s : Shape) : tensorAdd s s = some s := by
  simp [tensorAdd, broadcastDim]

lemma OSA_forward_identity_same (cc st L h w : Nat)
    (hh : 1 ≤ h) (hw : 1 ≤ w) :
    (OSA_module.make cc st cc L true).forward ⟨cc, h, w⟩ =
      some ⟨cc, h, w⟩ := by
  simp only [OSA_module.forward, OSA_catInput_make cc st cc L h w true hh hw,
    OSA_reduced_make cc st cc L h w true hh hw, Option.bind_eq_bind,
    Option.some_bind]
  simp [OSA_module.make, tensorAdd_self]

lemma OSA_forward_identity_mismatch (in_ch st cc L h w : Nat)
    (hne : in_ch ≠ cc) (h1 : 1 < in_ch) (h2 : 1 < cc)
    (hh : 1 ≤ h) (hw : 1 ≤ w) :
    (OSA_module.make in_ch st cc L true).forward ⟨in_ch, h, w⟩ = none := by
  simp only [OSA_module.forward, OSA_catInput_make in_ch st cc L h w true hh hw,
    OSA_reduced_make in_ch st cc L h w true hh hw, Option.bind_eq_bind,
    Option.some_bind]
  have : broadcastDim cc in_ch = none := by
    simp only [broadcastDim]
    rw [if_neg (fun hx => hne hx.symm), if_neg (by omega), if_neg (by omega)]
  simp [OSA_module.make, tensorAdd, this]

lemma stageForward_nil (x : Shape) : stageForward [] x = some x := rfl

lemma stageForward_cons (it : StageItem) (rest : List StageItem) (x : Shape) :
    stageForward (it :: rest) x = (StageItem.apply it x).bind (stageForward rest) := by
  simp [stageForward, List.foldlM_cons]

lemma stageForward_identityModules (n : Nat) : ∀ (st cc L h w : Nat),
    1 ≤ h → 1 ≤ w →
    stageForward (osaIdentityModules st cc L n) ⟨cc, h, w⟩ = some ⟨cc, h, w⟩ := by
  induction n with
  | zero => intro st cc L h w _ _; rfl
  | succ k ih =>
      intro st cc L h w hh hw
      rw [osaIdentityModules, List.replicate_succ]
      rw [stageForward_cons]
      show ((OSA_module.make cc st cc L true).forward ⟨cc, h, w⟩).bind _ = _
      rw [OSA_forward_identity_same cc st L h w hh hw, Option.some_bind]
      exact ih st cc L h w hh hw

lemma one_le_poolCeilOutDim (h k s : Nat) : 1 ≤ poolCeilOutDim h k s := by
  simp [poolCeilOutDim]

lemma one_le_convOutDim (h k s p : Nat) : 1 ≤ convOutDim h k s p := by
  simp [convOutDim]

lemma stageForward_OSA_stage (in_ch st cc B L num h w : Nat)
    (hh : 2 ≤ h) (hw : 2 ≤ w) :
    stageForward (_OSA_stage in_ch st cc B L num) ⟨in_ch, h, w⟩ =
      if num = 2 then some ⟨cc, h, w⟩
      else some ⟨cc, halveCeil h, halveCeil w⟩ := by
  by_cases h2 : num = 2
  · rw [if_pos h2]
    rw [_OSA_stage, if_pos h2, List.nil_append, stageForward_cons]
    show ((OSA_module.make in_ch st cc L false).forward ⟨in_ch, h, w⟩).bind _ = _
    rw [OSA_forward_nonidentity in_ch st cc L h w (by omega) (by omega),
      Option.some_bind]
    exact stageForward_identityModules (B - 1) st cc L h w (by omega) (by omega)
  · rw [if_neg h2]
    rw [_OSA_stage, if_neg h2, List.singleton_append, stageForward_cons]
    show (if 3 < h + 2 ∧ 3 < w + 2 then
        some (Shape.mk in_ch (poolCeilOutDim h 3 2) (poolCeilOutDim w 3 2))
      else none).bind _ = _
    rw [if_pos (show 3 < h + 2 ∧ 3 < w + 2 by omega)]
    rw [Option.some_bind, stageForward_cons]
    show ((OSA_module.make in_ch st cc L false).forward _).bind _ = _
    rw [OSA_forward_nonidentity in_ch st cc L (poolCeilOutDim h 3 2)
      (poolCeilOutDim w 3 2) (one_le_poolCeilOutDim h 3 2)
      (one_le_poolCeilOutDim w 3 2), Option.some_bind]
    exact stageForward_identityModules (B - 1) st cc L (poolCeilOutDim h 3 2)
      (poolCeilOutDim w 3 2) (one_le_poolCeilOutDim h 3 2)
      (one_le_poolCeilOutDim w 3 2)

lemma seqForward_stem (h w : Nat) (hh : 1 ≤ h) (hw : 1 ≤ w) :
    seqForward (conv3x3 3 64 2 ++ conv3x3 64 64 1 ++ conv3x3 64 128 2)
      ⟨3, h, w⟩ = some ⟨128, stemOutDim h, stemOutDim w⟩ := by
  rw [seqForward_append, seqForward_append, seqForward_conv3x3, Option.some_bind,
    seqForward_conv3x3, Option.some_bind, seqForward_conv3x3]
  rfl

lemma one_le_stemOutDim (h : Nat) : 1 ≤ stemOutDim h := by
  simp [stemOutDim, convOutDim]

lemma one_le_halveCeil (h : Nat) : 1 ≤ halveCeil h := by
  simp [halveCeil, poolCeilOutDim]

lemma forward_make (s1 s2 s3 s4 c1 c2 c3 c4 b1 b2 b3 b4 L nc h w : Nat)
    (hh : 29 ≤ h) (hw : 29 ≤ w) :
    (VoVNet.make [s1, s2, s3, s4] [c1, c2, c3, c4] [b1, b2, b3, b4] L nc).forward
      ⟨3, h, w⟩ =
      some ⟨⟨c1, stemOutDim h, stemOutDim w⟩,
            ⟨c2, halveCeil (stemOutDim h), halveCeil (stemOutDim w)⟩,
            ⟨c3, halveCeil (halveCeil (stemOutDim h)),
                 halveCeil (halveCeil (stemOutDim w))⟩,
            ⟨c4, halveCeil (halveCeil (halveCeil (stemOutDim h))),
                 halveCeil (halveCeil (halveCeil (stemOutDim w)))⟩⟩ := by
  have hsh : 8 ≤ stemOutDim h := by
    simp only [stemOutDim, convOutDim]; omega
  have hsw : 8 ≤ stemOutDim w := by
    simp only [stemOutDim, convOutDim]; omega
  have hch : 4 ≤ halveCeil (stemOutDim h) := by
    simp only [halveCeil, poolCeilOutDim]; omega
  have hcw : 4 ≤ halveCeil (stemOutDim w) := by
    simp only [halveCeil, poolCeilOutDim]; omega
  have hdh : 2 ≤ halveCeil (halveCeil (stemOutDim h)) := by
    simp only [halveCeil, poolCeilOutDim]; omega
  have hdw : 2 ≤ halveCeil (halveCeil (stemOutDim w)) := by
    simp only [halveCeil, poolCeilOutDim]; omega
  show (VoVNet.forward _ _) = _
  rw [VoVNet.forward]
  show (seqForward (conv3x3 3 64 2 ++ conv3x3 64 64 1 ++ conv3x3 64 128 2)
    ⟨3, h, w⟩).bind _ = _
  rw [seqForward_stem h w (by omega) (by omega), Option.some_bind]
  show (stageForward (_OSA_stage 128 s1 c1 b1 L 2) _).bind _ = _
  rw [stageForward_OSA_stage 128 s1 c1 b1 L 2 (stemOutDim h) (stemOutDim w)
    (by omega) (by omega), if_pos rfl, Option.some_bind]
  show (stageForward (_OSA_stage c1 s2 c2 b2 L 3) _).bind _ = _
  rw [stageForward_OSA_stage c1 s2 c2 b2 L 3 (stemOutDim h) (stemOutDim w)
    (by omega) (by omega), if_neg (by omega), Option.some_bind]
  show (stageForward (_OSA_stage c2 s3 c3 b3 L 4) _).bind _ = _
  rw [stageForward_OSA_stage c2 s3 c3 b3 L 4 (halveCeil (stemOutDim h))
    (halveCeil (stemOutDim w)) (by omega) (by omega), if_neg (by omega),
    Option.some_bind]
  show (stageForward (_OSA_stage c3 s4 c4 b4 L 5) _).bind _ = _
  rw [stageForward_OSA_stage c3 s4 c4 b4 L 5
    (halveCeil (halveCeil (stemOutDim h))) (halveCeil (halveCeil (stemOutDim w)))
    hdh hdw, if_neg (by omega), Option.some_bind]
  rfl

lemma stemOutDim_mul4 (k : Nat) (hk : 1 ≤ k) : stemOutDim (4 * k) = k := by
  simp only [stemOutDim, convOutDim]
  omega

lemma halveCeil_mul2 (k : Nat) (hk : 1 ≤ k) : halveCeil (2 * k) = k := by
  simp only [halveCeil, poolCeilOutDim]
  omega

lemma forward_at_mul32 (s1 s2 s3 s4 c1 c2 c3 c4 b1 b2 b3 b4 L nc k : Nat)
    (hk : 1 ≤ k) :
    (VoVNet.make [s1, s2, s3, s4] [c1, c2, c3, c4] [b1, b2, b3, b4] L nc).forward
      ⟨3, 32 * k, 32 * k⟩ =
      some ⟨⟨c1, 8 * k, 8 * k⟩, ⟨c2, 4 * k, 4 * k⟩,
            ⟨c3, 2 * k, 2 * k⟩, ⟨c4, k, k⟩⟩ := by
  have hstem : stemOutDim (32 * k) = 8 * k := by
    rw [show (32 : Nat) * k = 4 * (8 * k) by ring]
    exact stemOutDim_mul4 (8 * k) (by omega)
  have h8 : halveCeil (8 * k) = 4 * k := by
    rw [show (8 : Nat) * k = 2 * (4 * k) by ring]
    exact halveCeil_mul2 (4 * k) (by omega)
  have h4 : halveCeil (4 * k) = 2 * k := by
    rw [show (4 : Nat) * k = 2 * (2 * k) by ring]
    exact halveCeil_mul2 (2 * k) (by omega)
  have h2 : halveCeil (2 * k) = k := halveCeil_mul2 k hk
  rw [forward_make s1 s2 s3 s4 c1 c2 c3 c4 b1 b2 b3 b4 L nc (32 * k) (32 * k)
    (by omega) (by omega), hstem, h8, h4, h2]

lemma osaLayers_length (L : Nat) : ∀ a b : Nat, (osaLayers L a b).length = L := by
  induction L with
  | zero => intro a b; rfl
  | succ n ih => intro a b; simp [osaLayers, ih]

lemma stageModules_identityModules (st cc L n : Nat) :
    stageModules (osaIdentityModules st cc L n) =
      List.replicate n (OSA_module.make cc st cc L true) := by
  induction n with
  | zero => rfl
  | succ m ih =>
      rw [osaIdentityModules, List.replicate_succ]
      rw [osaIdentityModules] at ih
      simp only [stageModules, List.filterMap_cons] at ih ⊢
      rw [ih, List.replicate_succ]

lemma stagePools_identityModules (st cc L n : Nat) :
    stagePools (osaIdentityModules st cc L n) = [] := by
  induction n with
  | zero => rfl
  | succ m ih =>
      rw [osaIdentityModules, List.replicate_succ]
      rw [osaIdentityModules] at ih
      simp only [stagePools, List.filter_cons] at ih ⊢
      exact ih

/-- C1 counterexample: for the slim configuration, output_shape reports 256
channels for res2, but forward on a 224x224 input produces a res2 map with
128 channels, so the reported pair does not equal what forward produces. -/
theorem C1_counterexample :
    ¬ ((vovnet27_slim_model.forward ⟨3, 224, 224⟩).map
        (fun o => o.res2.channels) =
      some vovnet27_slim_model.output_shape.res2.channels) := by
  decide

/-- C1 (amended): for vovnet39 and vovnet57, the (channels, stride) pairs
output_shape reports match what forward produces (channels 256/512/768/1024
and, on a 32k-sized input, spatial sizes 8k/4k/2k/k, i.e. strides 4/8/16/32);
vovnet27_slim's output_shape still reports the same hard-coded pairs although
its forward produces channels 128/256/384/512. -/
theorem C1_theorem (k : Nat) (hk : 1 ≤ k) :
    vovnet39_model.forward ⟨3, 32 * k, 32 * k⟩ =
      some ⟨⟨256, 8 * k, 8 * k⟩, ⟨512, 4 * k, 4 * k⟩,
            ⟨768, 2 * k, 2 * k⟩, ⟨1024, k, k⟩⟩ ∧
    vovnet57_model.forward ⟨3, 32 * k, 32 * k⟩ =
      some ⟨⟨256, 8 * k, 8 * k⟩, ⟨512, 4 * k, 4 * k⟩,
            ⟨768, 2 * k, 2 * k⟩, ⟨1024, k, k⟩⟩ ∧
    vovnet27_slim_model.forward ⟨3, 32 * k, 32 * k⟩ =
      some ⟨⟨128, 8 * k, 8 * k⟩, ⟨256, 4 * k, 4 * k⟩,
            ⟨384, 2 * k, 2 * k⟩, ⟨512, k, k⟩⟩ ∧
    vovnet39_model.output_shape =
      ⟨⟨256, 4⟩, ⟨512, 8⟩, ⟨768, 16⟩, ⟨1024, 32⟩⟩ ∧
    vovnet57_model.output_shape =
      ⟨⟨256, 4⟩, ⟨512, 8⟩, ⟨768, 16⟩, ⟨1024, 32⟩⟩ ∧
    vovnet27_slim_model.output_shape =
      ⟨⟨256, 4⟩, ⟨512, 8⟩, ⟨768, 16⟩, ⟨1024, 32⟩⟩ := by
  refine ⟨?_, ?_, ?_, rfl, rfl, rfl⟩
  · exact forward_at_mul32 128 160 192 224 256 512 768 1024 1 1 2 2 5 1000 k hk
  · exact forward_at_mul32 128 160 192 224 256 512 768 1024 1 1 4 3 5 1000 k hk
  · exact forward_at_mul32 64 80 96 112 128 256 384 512 1 1 1 1 5 1000 k hk

/-- C1 witness: the amended statement at k = 7 (a 224x224 input). -/
theorem C1_witness :
    vovnet39_model.forward ⟨3, 224, 224⟩ =
      some ⟨⟨256, 56, 56⟩, ⟨512, 28, 28⟩, ⟨768, 14, 14⟩, ⟨1024, 7, 7⟩⟩ ∧
    vovnet57_model.forward ⟨3, 224, 224⟩ =
      some ⟨⟨256, 56, 56⟩, ⟨512, 28, 28⟩, ⟨768, 14, 14⟩, ⟨1024, 7, 7⟩⟩ ∧
    vovnet27_slim_model.forward ⟨3, 224, 224⟩ =
      some ⟨⟨128, 56, 56⟩, ⟨256, 28, 28⟩, ⟨384, 14, 14⟩, ⟨512, 7, 7⟩⟩ ∧
    vovnet39_model.output_shape =
      ⟨⟨256, 4⟩, ⟨512, 8⟩, ⟨768, 16⟩, ⟨1024, 32⟩⟩ ∧
    vovnet57_model.output_shape =
      ⟨⟨256, 4⟩, ⟨512, 8⟩, ⟨768, 16⟩, ⟨1024, 32⟩⟩ ∧
    vovnet27_slim_model.output_shape =
      ⟨⟨256, 4⟩, ⟨512, 8⟩, ⟨768, 16⟩, ⟨1024, 32⟩⟩ :=
  C1_theorem 7 (by decide)

/-- C2: an OSA module built with (in_ch, stage_ch, concat_ch, layer_per_block)
chains exactly layer_per_block 3x3 Conv-Norm-Act units, each consuming the
previous output (the first from in_ch, every later one from stage_ch);
concatenating the input with the L intermediate maps yields exactly
in_ch + L * stage_ch channels; and the single 1x1 Conv-Norm-Act reduction maps
that to exactly concat_ch channels, which is the forward output. -/
theorem C2_theorem (in_ch st cc L h w : Nat) (i : Bool)
    (hh : 1 ≤ h) (hw : 1 ≤ w) :
    (OSA_module.make in_ch st cc L i).layers = osaLayers L in_ch st ∧
    (OSA_module.make in_ch st cc L i).layers.length = L ∧
    collectOutputs (OSA_module.make in_ch st cc L i).layers ⟨in_ch, h, w⟩ =
      some (List.replicate L ⟨st, h, w⟩) ∧
    (OSA_module.make in_ch st cc L i).catInput ⟨in_ch, h, w⟩ =
      some ⟨in_ch + L * st, h, w⟩ ∧
    (OSA_module.make in_ch st cc L i).concat = conv1x1 (in_ch + L * st) cc ∧
    seqForward (OSA_module.make in_ch st cc L i).concat ⟨in_ch + L * st, h, w⟩ =
      some ⟨cc, h, w⟩ ∧
    (OSA_module.make in_ch st cc L false).forward ⟨in_ch, h, w⟩ =
      some ⟨cc, h, w⟩ := by
  refine ⟨rfl, osaLayers_length L in_ch st,
    collectOutputs_osaLayers L in_ch st h w hh hw,
    OSA_catInput_make in_ch st cc L h w i hh hw, rfl,
    OSA_reduced_make in_ch st cc L h w i hh hw,
    OSA_forward_nonidentity in_ch st cc L h w hh hw⟩

/-- C2 witness: the statement at stage-4 parameters of vovnet57
(in_ch 512, stage_ch 192, concat_ch 768, 5 layers) on a 14x14 map. -/
theorem C2_witness :
    (OSA_module.make 512 192 768 5 false).layers = osaLayers 5 512 192 ∧
    (OSA_module.make 512 192 768 5 false).layers.length = 5 ∧
    collectOutputs (OSA_module.make 512 192 768 5 false).layers ⟨512, 14, 14⟩ =
      some (List.replicate 5 ⟨192, 14, 14⟩) ∧
    (OSA_module.make 512 192 768 5 false).catInput ⟨512, 14, 14⟩ =
      some ⟨512 + 5 * 192, 14, 14⟩ ∧
    (OSA_module.make 512 192 768 5 false).concat = conv1x1 (512 + 5 * 192) 768 ∧
    seqForward (OSA_module.make 512 192 768 5 false).concat
      ⟨512 + 5 * 192, 14, 14⟩ = some ⟨768, 14, 14⟩ ∧
    (OSA_module.make 512 192 768 5 false).forward ⟨512, 14, 14⟩ =
      some ⟨768, 14, 14⟩ :=
  C2_theorem 512 192 768 5 14 14 false (by decide) (by decide)

/-- C3: a stage built by _OSA_stage begins with the ceil-mode 3x3 stride-2
max-pool exactly when stage_num is not 2 (for stage 2 it begins directly with
the first OSA module and contains no pool at all); it contains exactly
block_per_stage OSA modules, the first built from the stage input channel
count in non-identity mode, every later one with concat_ch as both input and
output in identity mode. -/
theorem C3_theorem (in_ch st cc B L s : Nat) (hB : 1 ≤ B) :
    (s ≠ 2 → (_OSA_stage in_ch st cc B L s).head? =
      some (StageItem.maxPool 3 2)) ∧
    (s = 2 → (_OSA_stage in_ch st cc B L s).head? =
      some (StageItem.osa (OSA_module.make in_ch st cc L false))) ∧
    stagePools (_OSA_stage in_ch st cc B L s) =
      (if s = 2 then [] else [StageItem.maxPool 3 2]) ∧
    stageModules (_OSA_stage in_ch st cc B L s) =
      OSA_module.make in_ch st cc L false ::
        List.replicate (B - 1) (OSA_module.make cc st cc L true) ∧
    (stageModules (_OSA_stage in_ch st cc B L s)).length = B ∧
    (OSA_module.make in_ch st cc L false).identity = false ∧
    (OSA_module.make cc st cc L true).identity = true := by
  have hpools : stagePools (_OSA_stage in_ch st cc B L s) =
      (if s = 2 then [] else [StageItem.maxPool 3 2]) := by
    rw [_OSA_stage]
    by_cases h2 : s = 2
    · rw [if_pos h2, List.nil_append]
      simp only [stagePools, List.filter_cons]
      exact stagePools_identityModules st cc L (B - 1)
    · rw [if_neg h2, List.singleton_append]
      simp only [stagePools, List.filter_cons]
      have := stagePools_identityModules st cc L (B - 1)
      simp only [stagePools] at this
      simp [this]
  have hmods : stageModules (_OSA_stage in_ch st cc B L s) =
      OSA_module.make in_ch st cc L false ::
        List.replicate (B - 1) (OSA_module.make cc st cc L true) := by
    rw [_OSA_stage]
    by_cases h2 : s = 2
    · rw [if_pos h2, List.nil_append]
      simp only [stageModules, List.filterMap_cons]
      have := stageModules_identityModules st cc L (B - 1)
      simp only [stageModules] at this
      simp [this]
    · rw [if_neg h2, List.singleton_append]
      simp only [stageModules, List.filterMap_cons]
      have := stageModules_identityModules st cc L (B - 1)
      simp only [stageModules] at this
      simp [this]
  refine ⟨?_, ?_, hpools, hmods, ?_, rfl, rfl⟩
  · intro hs
    rw [_OSA_stage, if_neg hs, List.singleton_append]
    rfl
  · intro hs
    rw [_OSA_stage, if_pos hs, List.nil_append]
    rfl
  · rw [hmods]
    simp only [List.length_cons, List.length_replicate]
    omega

/-- C3 witness: the statement at the stage-4 parameters of vovnet57
(in_ch 512, stage_ch 192, concat_ch 768, 4 blocks, 5 layers, stage_num 4). -/
theorem C3_witness :
    (4 ≠ 2 → (_OSA_stage 512 192 768 4 5 4).head? =
      some (StageItem.maxPool 3 2)) ∧
    (4 = 2 → (_OSA_stage 512 192 768 4 5 4).head? =
      some (StageItem.osa (OSA_module.make 512 192 768 5 false))) ∧
    stagePools (_OSA_stage 512 192 768 4 5 4) =
      (if 4 = 2 then [] else [StageItem.maxPool 3 2]) ∧
    stageModules (_OSA_stage 512 192 768 4 5 4) =
      OSA_module.make 512 192 768 5 false ::
        List.replicate (4 - 1) (OSA_module.make 768 192 768 5 true) ∧
    (stageModules (_OSA_stage 512 192 768 4 5 4)).length = 4 ∧
    (OSA_module.make 512 192 768 5 false).identity = false ∧
    (OSA_module.make 768 192 768 5 true).identity = true :=
  C3_theorem 512 192 768 4 5 4 (by decide)

/-- C4: on every valid 3-channel input -- one whose spatial dimensions are
at least 29, so that no ceil-mode max-pool sees a size-1 map and raises
"Output size is too small" (an input with a smaller dimension is an
unsupported resolution and a fatal runtime error: the last two conjuncts
exhibit this at 28x28, which fails at stage 5's pool, and 8x8, which fails
at stage 4's) -- forward succeeds and returns the record with exactly the
four keys res2..res5 (the successive outputs of stages 2..5), whose channel
counts are 256/512/768/1024 for the 39 and 57 configurations and
128/256/384/512 for the slim configuration. -/
theorem C4_theorem (h w : Nat) (hh : 29 ≤ h) (hw : 29 ≤ w) :
    (vovnet39_model.forward ⟨3, h, w⟩).map
        (fun o => (o.res2.channels, o.res3.channels,
                   o.res4.channels, o.res5.channels)) =
      some (256, 512, 768, 1024) ∧
    (vovnet57_model.forward ⟨3, h, w⟩).map
        (fun o => (o.res2.channels, o.res3.channels,
                   o.res4.channels, o.res5.channels)) =
      some (256, 512, 768, 1024) ∧
    (vovnet27_slim_model.forward ⟨3, h, w⟩).map
        (fun o => (o.res2.channels, o.res3.channels,
                   o.res4.channels, o.res5.channels)) =
      some (128, 256, 384, 512) ∧
    vovnet39_model.forward ⟨3, 28, 28⟩ = none ∧
    vovnet39_model.forward ⟨3, 8, 8⟩ = none := by
  refine ⟨?_, ?_, ?_, by decide, by decide⟩
  · show ((VoVNet.make [128, 160, 192, 224] [256, 512, 768, 1024]
      [1, 1, 2, 2] 5 1000).forward ⟨3, h, w⟩).map _ = _
    rw [forward_make 128 160 192 224 256 512 768 1024 1 1 2 2 5 1000 h w hh hw]
    rfl
  · show ((VoVNet.make [128, 160, 192, 224] [256, 512, 768, 1024]
      [1, 1, 4, 3] 5 1000).forward ⟨3, h, w⟩).map _ = _
    rw [forward_make 128 160 192 224 256 512 768 1024 1 1 4 3 5 1000 h w hh hw]
    rfl
  · show ((VoVNet.make [64, 80, 96, 112] [128, 256, 384, 512]
      [1, 1, 1, 1] 5 1000).forward ⟨3, h, w⟩).map _ = _
    rw [forward_make 64 80 96 112 128 256 384 512 1 1 1 1 5 1000 h w hh hw]
    rfl

/-- C4 witness: the statement at a 224x224 input. -/
theorem C4_witness :
    (vovnet39_model.forward ⟨3, 224, 224⟩).map
        (fun o => (o.res2.channels, o.res3.channels,
                   o.res4.channels, o.res5.channels)) =
      some (256, 512, 768, 1024) ∧
    (vovnet57_model.forward ⟨3, 224, 224⟩).map
        (fun o => (o.res2.channels, o.res3.channels,
                   o.res4.channels, o.res5.channels)) =
      some (256, 512, 768, 1024) ∧
    (vovnet27_slim_model.forward ⟨3, 224, 224⟩).map
        (fun o => (o.res2.channels, o.res3.channels,
                   o.res4.channels, o.res5.channels)) =
      some (128, 256, 384, 512) ∧
    vovnet39_model.forward ⟨3, 28, 28⟩ = none ∧
    vovnet39_model.forward ⟨3, 8, 8⟩ = none :=
  C4_theorem 224 224 (by decide) (by decide)

/-- C5: for every configuration, on a 32k x 32k input the four output maps
have spatial sizes (32k)/4, (32k)/8, (32k)/16, (32k)/32 in both dimensions:
the strides of res2..res5 relative to the input are exactly 4, 8, 16, 32
(the stem's two padded stride-2 convolutions contribute the factor 4, the
ceil-mode stride-2 max-pools before stages 3, 4, 5 the rest). -/
theorem C5_theorem (k : Nat) (hk : 1 ≤ k) :
    (vovnet39_model.forward ⟨3, 32 * k, 32 * k⟩).map
        (fun o => (o.res2.height, o.res3.height, o.res4.height, o.res5.height)) =
      some (32 * k / 4, 32 * k / 8, 32 * k / 16, 32 * k / 32) ∧
    (vovnet39_model.forward ⟨3, 32 * k, 32 * k⟩).map
        (fun o => (o.res2.width, o.res3.width, o.res4.width, o.res5.width)) =
      some (32 * k / 4, 32 * k / 8, 32 * k / 16, 32 * k / 32) ∧
    (vovnet57_model.forward ⟨3, 32 * k, 32 * k⟩).map
        (fun o => (o.res2.height, o.res3.height, o.res4.height, o.res5.height)) =
      some (32 * k / 4, 32 * k / 8, 32 * k / 16, 32 * k / 32) ∧
    (vovnet27_slim_model.forward ⟨3, 32 * k, 32 * k⟩).map
        (fun o => (o.res2.height, o.res3.height, o.res4.height, o.res5.height)) =
      some (32 * k / 4, 32 * k / 8, 32 * k / 16, 32 * k / 32) := by
  have e4 : 32 * k / 4 = 8 * k := by omega
  have e8 : 32 * k / 8 = 4 * k := by omega
  have e16 : 32 * k / 16 = 2 * k := by omega
  have e32 : 32 * k / 32 = k := by omega
  rw [e4, e8, e16, e32]
  refine ⟨?_, ?_, ?_, ?_⟩
  · show ((VoVNet.make [128, 160, 192, 224] [256, 512, 768, 1024]
      [1, 1, 2, 2] 5 1000).forward ⟨3, 32 * k, 32 * k⟩).map _ = _
    rw [forward_at_mul32 128 160 192 224 256 512 768 1024 1 1 2 2 5 1000 k hk]
    rfl
  · show ((VoVNet.make [128, 160, 192, 224] [256, 512, 768, 1024]
      [1, 1, 2, 2] 5 1000).forward ⟨3, 32 * k, 32 * k⟩).map _ = _
    rw [forward_at_mul32 128 160 192 224 256 512 768 1024 1 1 2 2 5 1000 k hk]
    rfl
  · show ((VoVNet.make [128, 160, 192, 224] [256, 512, 768, 1024]
      [1, 1, 4, 3] 5 1000).forward ⟨3, 32 * k, 32 * k⟩).map _ = _
    rw [forward_at_mul32 128 160 192 224 256 512 768 1024 1 1 4 3 5 1000 k hk]
    rfl
  · show ((VoVNet.make [64, 80, 96, 112] [128, 256, 384, 512]
      [1, 1, 1, 1] 5 1000).forward ⟨3, 32 * k, 32 * k⟩).map _ = _
    rw [forward_at_mul32 64 80 96 112 128 256 384 512 1 1 1 1 5 1000 k hk]
    rfl

/-- C5 witness: at k = 7 the input is 224x224 and the output sizes are
56, 28, 14, 7. -/
theorem C5_witness :
    (vovnet39_model.forward ⟨3, 224, 224⟩).map
        (fun o => (o.res2.height, o.res3.height, o.res4.height, o.res5.height)) =
      some (56, 28, 14, 7) ∧
    (vovnet39_model.forward ⟨3, 224, 224⟩).map
        (fun o => (o.res2.width, o.res3.width, o.res4.width, o.res5.width)) =
      some (56, 28, 14, 7) ∧
    (vovnet57_model.forward ⟨3, 224, 224⟩).map
        (fun o => (o.res2.height, o.res3.height, o.res4.height, o.res5.height)) =
      some (56, 28, 14, 7) ∧
    (vovnet27_slim_model.forward ⟨3, 224, 224⟩).map
        (fun o => (o.res2.height, o.res3.height, o.res4.height, o.res5.height)) =
      some (56, 28, 14, 7) :=
  C5_theorem 7 (by decide)

/-- C6: the stem of every VoVNet instance is exactly the three 3x3
Conv-Norm-Act units with strides [2, 1, 2] and channel progression
3 -> 64 -> 64 -> 128 (nine layers in total), and on a 4k x 4k input it
produces a 128-channel map of size k x k: a spatial reduction by 4. -/
theorem C6_theorem (cs cc bp : List Nat) (L nc k : Nat) (hk : 1 ≤ k) :
    (VoVNet.make cs cc bp L nc).stem =
      conv3x3 3 64 2 ++ conv3x3 64 64 1 ++ conv3x3 64 128 2 ∧
    (VoVNet.make cs cc bp L nc).stem.length = 9 ∧
    seqForward (conv3x3 3 64 2) ⟨3, 4 * k, 4 * k⟩ = some ⟨64, 2 * k, 2 * k⟩ ∧
    seqForward (conv3x3 64 64 1) ⟨64, 2 * k, 2 * k⟩ = some ⟨64, 2 * k, 2 * k⟩ ∧
    seqForward (conv3x3 64 128 2) ⟨64, 2 * k, 2 * k⟩ = some ⟨128, k, k⟩ ∧
    seqForward (VoVNet.make cs cc bp L nc).stem ⟨3, 4 * k, 4 * k⟩ =
      some ⟨128, k, k⟩ := by
  have hc1 : convOutDim (4 * k) 3 2 1 = 2 * k := by
    simp only [convOutDim]; omega
  have hc2 : convOutDim (2 * k) 3 1 1 = 2 * k := by
    simp only [convOutDim]; omega
  have hc3 : convOutDim (2 * k) 3 2 1 = k := by
    simp only [convOutDim]; omega
  refine ⟨rfl, rfl, ?_, ?_, ?_, ?_⟩
  · rw [seqForward_conv3x3, hc1]
  · rw [seqForward_conv3x3, hc2]
  · rw [seqForward_conv3x3, hc3]
  · show seqForward (conv3x3 3 64 2 ++ conv3x3 64 64 1 ++ conv3x3 64 128 2)
      ⟨3, 4 * k, 4 * k⟩ = _
    rw [seqForward_stem (4 * k) (4 * k) (by omega) (by omega)]
    rw [show stemOutDim (4 * k) = k from stemOutDim_mul4 k hk]

/-- C6 witness: the statement for the vovnet39 configuration at k = 56
(a 224x224 input reduced to 56x56). -/
theorem C6_witness :
    (VoVNet.make [128, 160, 192, 224] [256, 512, 768, 1024] [1, 1, 2, 2]
        5 1000).stem =
      conv3x3 3 64 2 ++ conv3x3 64 64 1 ++ conv3x3 64 128 2 ∧
    (VoVNet.make [128, 160, 192, 224] [256, 512, 768, 1024] [1, 1, 2, 2]
        5 1000).stem.length = 9 ∧
    seqForward (conv3x3 3 64 2) ⟨3, 224, 224⟩ = some ⟨64, 112, 112⟩ ∧
    seqForward (conv3x3 64 64 1) ⟨64, 112, 112⟩ = some ⟨64, 112, 112⟩ ∧
    seqForward (conv3x3 64 128 2) ⟨64, 112, 112⟩ = some ⟨128, 56, 56⟩ ∧
    seqForward (VoVNet.make [128, 160, 192, 224] [256, 512, 768, 1024]
        [1, 1, 2, 2] 5 1000).stem ⟨3, 224, 224⟩ = some ⟨128, 56, 56⟩ :=
  C6_theorem [128, 160, 192, 224] [256, 512, 768, 1024] [1, 1, 2, 2]
    5 1000 56 (by decide)

/-- C7 counterexample: an identity-mode module with in_ch = 5 and
concat_ch = 7 is constructed by _OSA_module.__init__ without any failure --
the result is the fully formed module with its five conv units and its 1x1
reduction -- and the mismatch surfaces only when forward runs, where the
identity addition fails.  This refutes the claim that the violation fails
deterministically at construction time rather than only at forward-pass
time: _OSA_module.__init__ performs no channel check at all. -/
theorem C7_counterexample :
    OSA_module.make 5 64 7 5 true =
      ⟨true, osaLayers 5 5 64, conv1x1 (5 + 5 * 64) 7⟩ ∧
    (OSA_module.make 5 64 7 5 true).forward ⟨5, 8, 8⟩ = none := by
  exact ⟨rfl, by decide⟩

/-- C7 (amended): identity-mode modules need in_ch = concat_ch for their
forward addition to succeed, but the code checks nothing at construction
time: a violating module is constructed successfully, and the failure occurs
deterministically at forward time (whenever the two mismatched channel
counts are both greater than one, so broadcasting cannot mask it). -/
theorem C7_theorem (in_ch st cc L h w : Nat) (hne : in_ch ≠ cc)
    (h1 : 1 < in_ch) (h2 : 1 < cc) (hh : 1 ≤ h) (hw : 1 ≤ w) :
    OSA_module.make in_ch st cc L true =
      ⟨true, osaLayers L in_ch st, conv1x1 (in_ch + L * st) cc⟩ ∧
    (OSA_module.make in_ch st cc L true).forward ⟨in_ch, h, w⟩ = none :=
  ⟨rfl, OSA_forward_identity_mismatch in_ch st cc L h w hne h1 h2 hh hw⟩

/-- C7 witness: the amended statement at in_ch = 3, concat_ch = 10, two
layers, a 4x4 input. -/
theorem C7_witness :
    OSA_module.make 3 16 10 2 true =
      ⟨true, osaLayers 2 3 16, conv1x1 (3 + 2 * 16) 10⟩ ∧
    (OSA_module.make 3 16 10 2 true).forward ⟨3, 4, 4⟩ = none :=
  C7_theorem 3 16 10 2 4 4 (by decide) (by decide) (by decide) (by decide)
    (by decide)

/-- C8: the code at the failing input.  vovnet39.py never imports
load_state_dict_from_url, and Python resolves the callee name before
evaluating its arguments, so every pretrained=True call -- including
vovnet27_slim(pretrained=True), whose arch is not a key of model_urls --
fails with NameError before the model_urls lookup, not with the KeyError
the claim describes.  With pretrained=False the builder returns the model
without consulting the table (model_urls indeed has no vovnet27_slim key,
and does have vovnet39 and vovnet57 keys). -/
theorem C8_theorem :
    vovnet27_slim true =
      Except.error (PyError.nameError "load_state_dict_from_url") ∧
    vovnet39 true =
      Except.error (PyError.nameError "load_state_dict_from_url") ∧
    vovnet57 true =
      Except.error (PyError.nameError "load_state_dict_from_url") ∧
    vovnet27_slim false = Except.ok vovnet27_slim_model ∧
    vovnet39 false = Except.ok vovnet39_model ∧
    vovnet57 false = Except.ok vovnet57_model ∧
    model_urls "vovnet27_slim" = none ∧
    model_urls "vovnet39" ≠ none ∧
    model_urls "vovnet57" ≠ none :=
  ⟨rfl, rfl, rfl, rfl, rfl, rfl, by decide, by decide, by decide⟩

/-- C9: the forward computation is a deterministic function of the network
(its architecture and frozen parameters) and the input: two runs with equal
networks and the same input produce identical outputs for all four keys. -/
theorem C9_theorem (net1 net2 : VoVNet) (x : Shape) (hnet : net1 = net2) :
    net1.forward x = net2.forward x := by
  rw [hnet]

/-- C9 witness: two evaluations of vovnet39 on a 224x224 input agree. -/
theorem C9_witness :
    vovnet39_model.forward ⟨3, 224, 224⟩ = vovnet39_model.forward ⟨3, 224, 224⟩ :=
  C9_theorem vovnet39_model vovnet39_model ⟨3, 224, 224⟩ rfl

/-- C10: every identity-mode OSA module reachable through a stage built by
_OSA_stage is exactly the module built with concat_ch as both input and
output channel count, and on the well-typed input such a stage feeds it
(concat_ch channels), its forward -- including the unchecked identity
addition -- always succeeds: the shape-mismatch failure branch is
unreachable for modules constructed by _OSA_stage. -/
theorem C10_theorem (in_ch st cc B L num : Nat) (m : OSA_module)
    (hm : StageItem.osa m ∈ _OSA_stage in_ch st cc B L num)
    (hid : m.identity = true) :
    m = OSA_module.make cc st cc L true ∧
    ∀ h w : Nat, 1 ≤ h → 1 ≤ w → m.forward ⟨cc, h, w⟩ = some ⟨cc, h, w⟩ := by
  have hmod : m = OSA_module.make cc st cc L true := by
    rw [_OSA_stage] at hm
    rcases List.mem_append.mp hm with hp | hr
    · by_cases h2 : num = 2
      · rw [if_pos h2] at hp
        cases hp
      · rw [if_neg h2] at hp
        have := List.mem_singleton.mp hp
        cases this
    · rcases List.mem_cons.mp hr with hfirst | hrest
      · have hm' : m = OSA_module.make in_ch st cc L false :=
          StageItem.osa.inj hfirst
        rw [hm'] at hid
        cases hid
      · have := List.eq_of_mem_replicate hrest
        exact StageItem.osa.inj this
  refine ⟨hmod, ?_⟩
  intro h w hh hw
  rw [hmod]
  exact OSA_forward_identity_same cc st L h w hh hw

/-- C10 witness: the identity module of a two-block stage (concat_ch = 128)
forwards a 128-channel 4x4 map to itself successfully. -/
theorem C10_witness :
    (OSA_module.make 128 64 128 5 true).forward ⟨128, 4, 4⟩ =
      some ⟨128, 4, 4⟩ :=
  (C10_theorem 128 64 128 2 5 2 (OSA_module.make 128 64 128 5 true)
    (by decide) rfl).2 4 4 (by decide) (by decide)
